import Mathlib

/-!
Shallow embedding of the operational core of the `tg-userbot` Telegram
group scanner: the command-interface finite state machine
(`telegram_scanner/command_interface.py`), the retry/backoff error handler
(`telegram_scanner/error_handling.py`), the relevance filter
(`telegram_scanner/filter.py`) and the deduplicating storage manager
(`telegram_scanner/storage.py`), together with theorems settling the
spec claims about them.
-/

deriving instance DecidableEq for Except

namespace TgUserbot

/-! ## Command interface state machine (`command_interface.py`) -/

/-- The `ScannerState` enum from `command_interface.py`. -/
inductive ScannerState
  | stopped
  | running
  | paused
  | error
  deriving DecidableEq, Repr, Fintype

/-- The four lifecycle commands handled by `CommandInterface`. -/
inductive Command
  | start
  | stop
  | pause
  | resume
  deriving DecidableEq, Repr, Fintype

/-- Result of one command: the new interface state, and the `success` flag
of the returned result dict.  Second projection is `success`. -/
abbrev CmdOutcome := ScannerState × Bool

/-- One command executed by `CommandInterface`, embedding the bodies of
`start_scanning`, `stop_scanning`, `pause_scanning` and `resume_scanning`.
`opRaises` abstracts whether the underlying scanner operations invoked in
the `try` block (initialize / authenticate / discover_groups /
scan_history / start_monitoring / stop_monitoring) raise an exception.
On an exception, `start_scanning` and `resume_scanning` set the state to
`ERROR`; `stop_scanning` and `pause_scanning` leave the state as it was. -/
def execCommand (s : ScannerState) (c : Command) (opRaises : Bool) : CmdOutcome :=
  match c with
  | .start =>
      if s ≠ .stopped then (s, false)
      else if opRaises then (.error, false)
      else (.running, true)
  | .stop =>
      if s = .stopped then (s, false)
      else if opRaises then (s, false)
      else (.stopped, true)
  | .pause =>
      if s ≠ .running then (s, false)
      else if opRaises then (s, false)
      else (.paused, true)
  | .resume =>
      if s ≠ .paused then (s, false)
      else if opRaises then (.error, false)
      else (.running, true)

/-- A command under the assumption that the wrapped scanner operations
complete without raising. -/
def execCommandOk (s : ScannerState) (c : Command) : CmdOutcome :=
  execCommand s c false

/-- Replay of a whole command sequence (scanner operations succeed),
returning the final queryable state. -/
def replayExec (s : ScannerState) (cs : List Command) : ScannerState :=
  cs.foldl (fun st c => (execCommandOk st c).1) s

/-- The §4.8 transition table of the spec: `some t` when the command is
valid from `s` with result state `t`, `none` when invalid. -/
def specStep (s : ScannerState) (c : Command) : Option ScannerState :=
  match c, s with
  | .start, .stopped => some .running
  | .start, _ => none
  | .stop, .stopped => none
  | .stop, _ => some .stopped
  | .pause, .running => some .paused
  | .pause, _ => none
  | .resume, .paused => some .running
  | .resume, _ => none

/-- Replay of a command sequence over the spec table: valid transitions
move the state, invalid ones leave it unchanged. -/
def replaySpec (s : ScannerState) (cs : List Command) : ScannerState :=
  cs.foldl (fun st c => (specStep st c).getD st) s

/-- Successive `start` commands from a given state (scanner operations
succeed): final state and the list of `success` flags, in call order. -/
def execStarts (s : ScannerState) : Nat → ScannerState × List Bool
  | 0 => (s, [])
  | n + 1 =>
      let o := execCommandOk s .start
      let r := execStarts o.1 n
      (r.1, o.2 :: r.2)

/-! ## Error handling (`error_handling.py`, `ErrorHandler.with_retry`) -/

/-- Exceptions that a wrapped operation can raise, as classified by the
`except` clauses of `ErrorHandler.with_retry`: `FloodWaitError`,
`OSError`/`ConnectionError`, the session errors `AuthKeyUnregisteredError`
and `SessionPasswordNeededError`, the credential errors `ApiIdInvalidError`
and `PhoneCodeInvalidError`, the permission errors `ChannelPrivateError`
and `ChatAdminRequiredError`, and any other exception. -/
inductive PyError
  | floodWait (seconds : Nat)
  | osError (msg : String)
  | authKeyUnregistered
  | sessionPasswordNeeded
  | apiIdInvalid
  | phoneCodeInvalid
  | channelPrivate
  | chatAdminRequired
  | other (msg : String)
  deriving DecidableEq, Repr

/-- Terminal errors that `with_retry` itself raises to its caller:
`MaxRetriesExceededError` (carrying the last underlying error),
`SessionExpiredError`, `NetworkConnectivityError` (carrying the last
underlying error), or the original error re-raised unchanged. -/
inductive RetryError
  | maxRetriesExceeded (last : PyError)
  | sessionExpired (cause : PyError)
  | networkConnectivity (last : PyError)
  | reraised (cause : PyError)
  deriving DecidableEq, Repr

/-- The `OSError`/`ConnectionError` handler clause of `with_retry`. -/
def isConnectionClass : PyError → Bool
  | .osError _ => true
  | _ => false

/-- Immediate (non-retried) outcome of an exception: the session-class
clause raises `SessionExpiredError`, the credential and permission
clauses re-raise the original error; every other class is retryable and
yields `none` here. -/
def fatalResult : PyError → Option RetryError
  | .authKeyUnregistered => some (.sessionExpired .authKeyUnregistered)
  | .sessionPasswordNeeded => some (.sessionExpired .sessionPasswordNeeded)
  | .apiIdInvalid => some (.reraised .apiIdInvalid)
  | .phoneCodeInvalid => some (.reraised .phoneCodeInvalid)
  | .channelPrivate => some (.reraised .channelPrivate)
  | .chatAdminRequired => some (.reraised .chatAdminRequired)
  | _ => none

/-- Error raised when the attempt budget is exhausted on a retryable
error: the `OSError`/`ConnectionError` clause raises
`NetworkConnectivityError` in place; the `FloodWaitError` and generic
clauses break out of the loop and reach the final
`raise MaxRetriesExceededError`. -/
def exhaustResult (e : PyError) : RetryError :=
  if isConnectionClass e then .networkConnectivity e else .maxRetriesExceeded e

/-- The retry loop of `with_retry` over a pure operation: `op i` is the
outcome of invocation number `i` (starting at 0), `rem` the number of
attempts still allowed.  Returns the overall outcome and the number of
invocations of `op` performed. -/
def withRetryGo (op : Nat → Except PyError α) (attempt : Nat) :
    Nat → Except RetryError α × Nat
  | 0 => (.error (.maxRetriesExceeded (.other "unreachable")), 0)
  | rem + 1 =>
      match op attempt with
      | .ok v => (.ok v, 1)
      | .error e =>
          match fatalResult e with
          | some r => (.error r, 1)
          | none =>
              if rem = 0 then (.error (exhaustResult e), 1)
              else
                let r := withRetryGo op (attempt + 1) rem
                (r.1, r.2 + 1)

/-- Embedding of `ErrorHandler.with_retry`: up to `maxRetries + 1` attempts (the first
attempt plus the retries).  Sleeps and logging are elided. -/
def with_retry (op : Nat → Except PyError α) (maxRetries : Nat) :
    Except RetryError α × Nat :=
  withRetryGo op 0 (maxRetries + 1)

/-- The same retry loop over a stateful operation (state mutations made
before an exception persist into the next attempt, as in Python). -/
def withRetryStGo (op : σ → σ × Except PyError α) :
    Nat → σ → σ × Except RetryError α × Nat
  | 0, s => (s, .error (.maxRetriesExceeded (.other "unreachable")), 0)
  | rem + 1, s =>
      match op s with
      | (s', .ok v) => (s', .ok v, 1)
      | (s', .error e) =>
          match fatalResult e with
          | some r => (s', .error r, 1)
          | none =>
              if rem = 0 then (s', .error (exhaustResult e), 1)
              else
                let r := withRetryStGo op rem s'
                (r.1, r.2.1, r.2.2 + 1)

/-- Embedding of `with_retry` over a stateful operation. -/
def withRetrySt (op : σ → σ × Except PyError α) (maxRetries : Nat) (s : σ) :
    σ × Except RetryError α × Nat :=
  withRetryStGo op (maxRetries + 1) s

/-! ## Relevance filter (`filter.py`, `RelevanceFilter`)

Regular-expression matching is an external black box (Python's `re`): a
pattern either fails to compile (`rvalid p = false`, skipped at compile
time) or compiles to a case-insensitive matcher `rmatch p`, where
`rmatch p c = true` means the compiled pattern finds a match somewhere in
`c`.  Identical pattern strings compile identically, which the modelling
by functions of the pattern string captures. -/

/-- The subset of `ScannerConfig` consumed by `RelevanceFilter`. -/
structure FilterConfig where
  keywords : List String
  regex_patterns : List String
  logic_operator : String
  deriving Repr

/-- Python substring containment `needle in hay`, on the character
sequences of the two strings. -/
def strContainsChars (hay needle : List Char) : Bool :=
  decide (needle <:+: hay)

/-- Python `str.lower()`: character-wise lowercasing. -/
def lowerChars (s : String) : List Char :=
  s.toList.map Char.toLower

/-- Python `str.upper()`: character-wise uppercasing. -/
def upperChars (s : String) : List Char :=
  s.toList.map Char.toUpper

/-- Python `not s.strip()`: the string is empty or whitespace-only. -/
def isBlank (s : String) : Bool :=
  s.toList.all Char.isWhitespace

/-- Insertion of a key into a Python dict's key sequence: a key already
present keeps its original position, a new key is appended. -/
def dictInsertKey (acc : List String) (p : String) : List String :=
  if p ∈ acc then acc else acc ++ [p]

/-- Embedding of `_compile_regex_patterns`: build the key sequence of the
`_compiled_patterns` dict by iterating the configured patterns, skipping
the invalid ones. -/
def compiledPatterns (rvalid : String → Bool) (ps : List String) : List String :=
  ps.foldl (fun acc p => if rvalid p then dictInsertKey acc p else acc) []

/-- Embedding of `match_keywords`: one entry per configured keyword whose lowercase
form occurs in the lowercase content. -/
def match_keywords (keywords : List String) (content : String) : List String :=
  let content_lower := lowerChars content
  keywords.filter fun kw => strContainsChars content_lower (lowerChars kw)

/-- Embedding of `match_regex`: the compiled patterns that find a match in the content
(empty immediately when no patterns are configured). -/
def match_regex (rvalid : String → Bool) (rmatch : String → String → Bool)
    (ps : List String) (content : String) : List String :=
  if ps.isEmpty then []
  else (compiledPatterns rvalid ps).filter fun p => rmatch p content

/-- Embedding of `evaluate_criteria`: AND/OR combination of the two match lists. -/
def evaluate_criteria (cfg : FilterConfig) (km rm : List String) : Bool :=
  if cfg.keywords.isEmpty && cfg.regex_patterns.isEmpty then true
  else if (km ++ rm).isEmpty then false
  else if upperChars cfg.logic_operator = "AND".toList then
    (if cfg.keywords.isEmpty then true else !km.isEmpty) &&
    (if cfg.regex_patterns.isEmpty then true else !rm.isEmpty)
  else !(km ++ rm).isEmpty

/-- The content `is_relevant` considers: `message.content`, with
`" " + message.extracted_text` appended when the extracted text is
truthy (present and non-empty). -/
def contentToCheck (content : String) (extracted : Option String) : String :=
  match extracted with
  | some t => if t = "" then content else content ++ " " ++ t
  | none => content

/-- Embedding of `is_relevant`: first component is the returned relevance; second is
the enrichment written onto the message — `matched_criteria` and
`relevance_score` — which is `none` on the early whitespace-only return
(the message fields are left untouched there). -/
def is_relevant (rvalid : String → Bool) (rmatch : String → String → Bool)
    (cfg : FilterConfig) (content : String) (extracted : Option String) :
    Bool × Option (List String × ℚ) :=
  let c := contentToCheck content extracted
  if isBlank c then (false, none)
  else
    let km := match_keywords cfg.keywords c
    let rm := match_regex rvalid rmatch cfg.regex_patterns c
    let allMatches := km ++ rm
    let score : ℚ :=
      (allMatches.length : ℚ) / (max 1 (cfg.keywords.length + cfg.regex_patterns.length) : ℚ)
    (evaluate_criteria cfg km rm, some (allMatches, score))

/-- Spec formula (§4.4), for comparison with the source-derived
`is_relevant`: some configured keyword occurs case-insensitively as a
substring of the considered content. -/
def specKeywordMatch (kws : List String) (c : String) : Prop :=
  ∃ kw ∈ kws, strContainsChars (lowerChars c) (lowerChars kw) = true

/-- Spec formula (§4.4), for comparison with the source-derived
`is_relevant`: some configured regex pattern compiles and matches the
considered content. -/
def specRegexMatch (rvalid : String → Bool) (rmatch : String → String → Bool)
    (ps : List String) (c : String) : Prop :=
  ∃ p ∈ ps, rvalid p = true ∧ rmatch p c = true

/-! ## Storage (`storage.py`, `StorageManager`) -/

/-- A message record as stored: the three fields entering the duplicate
key, plus `other` standing for every remaining field (timestamp, sender,
media type, ...), which the key deliberately excludes. -/
structure MsgRecord where
  id : Int
  group_id : Int
  content : String
  other : String
  deriving DecidableEq, Repr

/-- Embedding of `_generate_content_hash`: the duplicate key is the MD5 of
`f"{id}{group_id}{content}"` — the three fields concatenated with no
separator.  MD5 is modelled as injective, so the key is the concatenated
string itself; the separator-free concatenation is preserved exactly. -/
def genContentHash (m : MsgRecord) : String :=
  toString m.id ++ toString m.group_id ++ m.content

/-- In-memory store state: `_data` and the `duplicate_hashes` set
(modelled as the list of inserted keys, membership being what the code
queries). -/
structure Store where
  data : List MsgRecord
  duplicate_hashes : List String
  deriving DecidableEq, Repr

/-- A fresh store. -/
def emptyStore : Store := ⟨[], []⟩

/-- Embedding of `_is_duplicate`. -/
def isDuplicate (s : Store) (m : MsgRecord) : Bool :=
  genContentHash m ∈ s.duplicate_hashes

/-- Embedding of `store_message` with persistence succeeding: reject a duplicate,
otherwise append to `_data`, add the key to the duplicate set, and
report `true`. -/
def store_message (s : Store) (m : MsgRecord) : Store × Bool :=
  if isDuplicate s m then (s, false)
  else (⟨s.data ++ [m], s.duplicate_hashes ++ [genContentHash m]⟩, true)

/-- Embedding of the `_persist_with_retry` loop body: `fails n` says whether the n-th file
write performed by this store (globally counted from `writeBase`) fails
with an I/O error.  Returns the outcome, the backoff delays slept in
seconds, and whether the backup file was restored to the primary path. -/
def persistGo (fails : Nat → Bool) (writeBase : Nat) :
    (attempt : Nat) → (rem : Nat) → Except PyError Unit × List Nat × Bool
  | _, 0 => (.ok (), [], false)
  | attempt, rem + 1 =>
      if fails (writeBase + attempt) then
        if rem = 0 then (.error (.osError "persist"), [], true)
        else
          let r := persistGo fails writeBase (attempt + 1) rem
          (r.1, 2 ^ attempt :: r.2.1, r.2.2)
      else (.ok (), [], false)

/-- Embedding of `_persist_with_retry` with its default of 3 attempts. -/
def persist_with_retry (fails : Nat → Bool) (writeBase : Nat) :
    Except PyError Unit × List Nat × Bool :=
  persistGo fails writeBase 0 3

/-- Store state threaded through the fallible path: the store plus the
number of file writes attempted so far. -/
structure StoreSt where
  store : Store
  writes : Nat
  deriving Repr

/-- Embedding of `_store_impl`, the body `store_message` hands to
`ErrorHandler.with_retry`: duplicate check, append to `_data` and the
duplicate set, then persist; an I/O error from persistence propagates
after the in-memory mutations have already happened. -/
def storeImpl (fails : Nat → Bool) (m : MsgRecord) (st : StoreSt) :
    StoreSt × Except PyError Bool :=
  if isDuplicate st.store m then (st, .ok false)
  else
    let s' : Store :=
      ⟨st.store.data ++ [m], st.store.duplicate_hashes ++ [genContentHash m]⟩
    let p := persist_with_retry fails st.writes
    let st' : StoreSt := ⟨s', st.writes + p.2.1.length + 1⟩
    match p.1 with
    | .ok _ => (st', .ok true)
    | .error e => (st', .error e)

/-- Embedding of `store_message` with the persistence layer modelled: the body runs
under `self.error_handler.with_retry` (`max_retries = 3`), and the
surrounding `try`/`except Exception` turns any terminal retry error into
a plain `False` return.  Second component: the outcome of the retry
wrapper; third: the value `store_message` actually returns to its
caller (no exception channel exists — the code catches everything). -/
def store_message_full (fails : Nat → Bool) (st : StoreSt) (m : MsgRecord) :
    StoreSt × Except RetryError Bool × Bool :=
  let r := withRetrySt (storeImpl fails m) 3 st
  (r.1, r.2.1, match r.2.1 with | .ok b => b | .error _ => false)

/-! ## Python keyword-argument binding (`scanner.py` / `error_handling.py`) -/

/-- The non-self parameters accepted by `RateLimiter.__init__`
(`error_handling.py`). -/
def rateLimiterInitParams : List String := ["requests_per_minute"]

/-- The keyword arguments `GroupScanner.__init__` passes to
`RateLimiter(...)` (`scanner.py`). -/
def groupScannerRateLimiterKwargs : List String :=
  ["requests_per_minute", "default_delay", "max_wait_time"]

/-- Python call semantics: binding keyword arguments succeeds exactly
when every supplied keyword names an accepted parameter; otherwise the
call raises `TypeError`. -/
def kwargsBindOk (params kwargs : List String) : Bool :=
  kwargs.all fun k => params.contains k

/-- Outcome of running a constructor body. -/
inductive PyInitOutcome
  | ok
  | typeError
  deriving DecidableEq, Repr

/-- The configuration fields `GroupScanner.__init__` reads for the
rate limiter (all present on every `ScannerConfig` dataclass instance). -/
structure ScannerConfig where
  rate_limit_rpm : Nat
  default_delay : ℚ
  max_wait_time : ℚ
  deriving Repr

/-- Embedding of `GroupScanner.__init__`: the attribute assignments preceding the
`RateLimiter(...)` call cannot raise; the call itself binds the supplied
keyword arguments against the accepted parameters. -/
def groupScannerInit (_cfg : ScannerConfig) : PyInitOutcome :=
  if kwargsBindOk rateLimiterInitParams groupScannerRateLimiterKwargs then
    PyInitOutcome.ok
  else
    PyInitOutcome.typeError

/-! ## Theorems -/

lemma execCommandOk_fst :
    ∀ (s : ScannerState) (c : Command),
      (execCommandOk s c).1 = (specStep s c).getD s := by decide

lemma count_true_replicate_false (n : Nat) :
    (List.replicate n false).count true = 0 := by
  induction n with
  | zero => rfl
  | succ n ih => simp [List.replicate, ih]

lemma count_false_replicate_false (n : Nat) :
    (List.replicate n false).count false = n := by
  induction n with
  | zero => rfl
  | succ n ih => simp [List.replicate, ih]

/-- C1: for every finite sequence of start/stop/pause/resume commands
(underlying scanner operations completing without raising), the queryable
state after the sequence equals the state obtained by replaying the
sequence over the §4.8 transition table, and an invalid command returns
success = false leaving the state unchanged while a valid one moves to
the table's result state with success = true. -/
theorem C1_state_replay :
    (∀ (s : ScannerState) (cs : List Command), replayExec s cs = replaySpec s cs)
    ∧ ∀ (s : ScannerState) (c : Command),
        execCommandOk s c =
          match specStep s c with
          | some t => (t, true)
          | none => (s, false) := by
  refine ⟨?_, by decide⟩
  intro s cs
  induction cs generalizing s with
  | nil => rfl
  | cons c cs ih =>
      show replayExec (execCommandOk s c).1 cs = replaySpec ((specStep s c).getD s) cs
      rw [execCommandOk_fst s c]
      exact ih _

lemma execStarts_running (n : Nat) :
    execStarts .running n = (.running, List.replicate n false) := by
  induction n with
  | zero => rfl
  | succ n ih => simp [execStarts, execCommandOk, execCommand, ih, List.replicate]

/-- C10: N serialized `start` commands from STOPPED (the command mutex
totally orders them; scanner operations succeed): the first returns
success = true, the other N − 1 return success = false observing the
RUNNING state, and the final state is RUNNING — exactly one success. -/
theorem C10_concurrent_starts (n : Nat) :
    execStarts .stopped (n + 1) = (.running, true :: List.replicate n false)
    ∧ (true :: List.replicate n false).count true = 1
    ∧ (true :: List.replicate n false).count false = n
    ∧ execCommandOk .running .start = (.running, false) := by
  refine ⟨?_, ?_, ?_, by decide⟩
  · simp [execStarts, execCommandOk, execCommand, execStarts_running n]
  · simp [count_true_replicate_false]
  · simp [count_false_replicate_false]

/-- C8 counterexample: the claim says stop, pause and resume never set
the state to ERROR, but `resume_scanning` from PAUSED sets ERROR when
the underlying `start_monitoring` raises. -/
theorem C8_counterexample :
    (execCommand .paused .resume true).1 = .error
    ∧ Command.resume ≠ Command.start := by decide

/-- C8 (amended): only start and resume ever transition the scanner into
ERROR (on an unexpected exception); stop and pause never set ERROR; once
in ERROR the only command that changes the state is stop (to STOPPED),
and start from ERROR fails leaving the state ERROR. -/
theorem C8_error_transitions :
    (∀ (s : ScannerState) (c : Command) (r : Bool),
        (c = .stop ∨ c = .pause) → s ≠ .error → (execCommand s c r).1 ≠ .error)
    ∧ execCommand .stopped .start true = (.error, false)
    ∧ execCommand .paused .resume true = (.error, false)
    ∧ (∀ (c : Command) (r : Bool), c ≠ .stop → (execCommand .error c r).1 = .error)
    ∧ execCommand .error .stop false = (.stopped, true)
    ∧ ∀ (r : Bool), execCommand .error .start r = (.error, false) := by
  refine ⟨by decide, by decide, by decide, by decide, by decide, by decide⟩

/-- C8 witness: pause from RUNNING with a raising operation does not
produce ERROR, and resume issued in ERROR leaves the state ERROR. -/
theorem C8_error_transitions_witness :
    (execCommand .running .pause true).1 ≠ .error
    ∧ (execCommand .error .resume false).1 = .error :=
  ⟨C8_error_transitions.1 .running .pause true (Or.inr rfl) (by decide),
   C8_error_transitions.2.2.2.1 .resume false (by decide)⟩

/-- C7: for every configuration, `GroupScanner.__init__` raises
`TypeError`: it calls `RateLimiter(...)` with the keyword arguments
`default_delay` and `max_wait_time`, which `RateLimiter.__init__`
(accepting only `requests_per_minute`) cannot bind. -/
theorem C7_group_scanner_init_type_error :
    (∀ cfg : ScannerConfig, groupScannerInit cfg = PyInitOutcome.typeError)
    ∧ kwargsBindOk rateLimiterInitParams groupScannerRateLimiterKwargs = false :=
  ⟨fun _ => rfl, rfl⟩

lemma withRetryGo_ok {α : Type} (op : Nat → Except PyError α) (v : α) :
    ∀ (k attempt rem : Nat), k < rem →
      (∀ i, i < k → ∃ e, op (attempt + i) = .error e ∧ fatalResult e = none) →
      op (attempt + k) = .ok v →
      withRetryGo op attempt rem = (.ok v, k + 1) := by
  intro k
  induction k with
  | zero =>
      intro attempt rem hlt hfail hok
      obtain ⟨r, rfl⟩ : ∃ r, rem = r + 1 := ⟨rem - 1, by omega⟩
      rw [Nat.add_zero] at hok
      simp [withRetryGo, hok]
  | succ k ih =>
      intro attempt rem hlt hfail hok
      obtain ⟨r, rfl⟩ : ∃ r, rem = r + 1 := ⟨rem - 1, by omega⟩
      obtain ⟨e, he, hf⟩ := hfail 0 (by omega)
      rw [Nat.add_zero] at he
      have hr : r ≠ 0 := by omega
      have hrec : withRetryGo op (attempt + 1) r = (.ok v, k + 1) := by
        refine ih (attempt + 1) r (by omega) ?_ ?_
        · intro i hi
          have h := hfail (i + 1) (by omega)
          rwa [show attempt + (i + 1) = attempt + 1 + i by omega] at h
        · rwa [show attempt + (k + 1) = attempt + 1 + k by omega] at hok
      simp [withRetryGo, he, hf, hr, hrec]

lemma withRetryGo_exhaust {α : Type} (op : Nat → Except PyError α) :
    ∀ (rem attempt : Nat) (e : PyError), 0 < rem →
      (∀ i, i < rem → ∃ e', op (attempt + i) = .error e' ∧ fatalResult e' = none) →
      op (attempt + (rem - 1)) = .error e →
      withRetryGo op attempt rem = (.error (exhaustResult e), rem) := by
  intro rem
  induction rem with
  | zero => omega
  | succ r ih =>
      intro attempt e _ hfail hlast
      obtain ⟨e0, he0, hf0⟩ := hfail 0 (by omega)
      rw [Nat.add_zero] at he0
      by_cases hr : r = 0
      · subst hr
        rw [show 0 + 1 - 1 = 0 from rfl, Nat.add_zero] at hlast
        rw [he0] at hlast
        obtain rfl : e0 = e := Except.error.inj hlast
        simp [withRetryGo, he0, hf0]
      · have hrec : withRetryGo op (attempt + 1) r = (.error (exhaustResult e), r) := by
          refine ih (attempt + 1) e (by omega) ?_ ?_
          · intro i hi
            have h := hfail (i + 1) (by omega)
            rwa [show attempt + (i + 1) = attempt + 1 + i by omega] at h
          · rwa [show attempt + (r + 1 - 1) = attempt + 1 + (r - 1) by omega] at hlast
        simp [withRetryGo, he0, hf0, hr, hrec]

/-- C2: a wrapped operation failing with a retryable transient error on
its first k invocations (k ≤ max_retries) and succeeding on invocation
k + 1 is invoked exactly k + 1 times and its success value returned; an
operation failing with a retryable transient error on every invocation
is invoked exactly max_retries + 1 times, after which the terminal error
for its last failure is raised. -/
theorem C2_retry_counts {α : Type} :
    (∀ (op : Nat → Except PyError α) (maxRetries k : Nat) (v : α),
        k ≤ maxRetries →
        (∀ i, i < k → ∃ e, op i = .error e ∧ fatalResult e = none) →
        op k = .ok v →
        with_retry op maxRetries = (.ok v, k + 1))
    ∧ ∀ (op : Nat → Except PyError α) (maxRetries : Nat) (e : PyError),
        (∀ i, i ≤ maxRetries → ∃ e', op i = .error e' ∧ fatalResult e' = none) →
        op maxRetries = .error e →
        with_retry op maxRetries = (.error (exhaustResult e), maxRetries + 1) := by
  constructor
  · intro op maxRetries k v hk hfail hok
    have := withRetryGo_ok op v k 0 (maxRetries + 1) (by omega)
      (by intro i hi; simpa using hfail i hi) (by simpa using hok)
    simpa [with_retry] using this
  · intro op maxRetries e hfail hlast
    have := withRetryGo_exhaust op (maxRetries + 1) 0 e (by omega)
      (by intro i hi; simpa using hfail i (by omega))
      (by simpa using hlast)
    simpa [with_retry] using this

/-- C2 witness: an operation failing twice with an unclassified transient
error then succeeding with value 7 under max_retries = 3 is invoked 3
times and returns 7; an operation always failing with a connection error
under max_retries = 2 is invoked 3 times and raises the terminal error. -/
theorem C2_retry_counts_witness :
    with_retry (fun i => if i < 2 then .error (.other "boom") else Except.ok 7) 3
      = (Except.ok 7, 3)
    ∧ with_retry (fun _ => (Except.error (PyError.osError "down") : Except PyError Nat)) 2
      = (.error (exhaustResult (.osError "down")), 3) :=
  ⟨C2_retry_counts.1 (fun i => if i < 2 then .error (.other "boom") else Except.ok 7)
      3 2 7 (by omega)
      (fun i hi => ⟨.other "boom", by simp [hi], rfl⟩) (by simp),
   C2_retry_counts.2 (fun _ => (Except.error (PyError.osError "down") : Except PyError Nat))
      2 (.osError "down") (fun i _ => ⟨.osError "down", rfl, rfl⟩) rfl⟩

/-- C3 counterexample: an operation failing with a connection-class error
(`OSError`/`ConnectionError`) on all max_retries + 1 = 4 attempts makes
`with_retry` raise `NetworkConnectivityError`, not
`MaxRetriesExceededError`, after the final attempt. -/
theorem C3_counterexample :
    with_retry (fun _ => (Except.error (PyError.osError "conn") : Except PyError Nat)) 3
      = (.error (.networkConnectivity (.osError "conn")), 4)
    ∧ RetryError.networkConnectivity (.osError "conn")
        ≠ RetryError.maxRetriesExceeded (.osError "conn") := by
  refine ⟨by decide, by decide⟩

/-- C3 (amended): when the wrapped operation fails on every one of the
max_retries + 1 attempts, with_retry raises, after the final attempt,
`NetworkConnectivityError` carrying the last underlying error if the
errors are I/O or connection-class, and `MaxRetriesExceededError`
carrying the last underlying error if they are otherwise-unclassified. -/
theorem C3_terminal_errors {α : Type} :
    (∀ (op : Nat → Except PyError α) (maxRetries : Nat) (msg : String),
        (∀ i, i ≤ maxRetries → ∃ m, op i = .error (.osError m)) →
        op maxRetries = .error (.osError msg) →
        with_retry op maxRetries
          = (.error (.networkConnectivity (.osError msg)), maxRetries + 1))
    ∧ ∀ (op : Nat → Except PyError α) (maxRetries : Nat) (msg : String),
        (∀ i, i ≤ maxRetries → ∃ m, op i = .error (.other m)) →
        op maxRetries = .error (.other msg) →
        with_retry op maxRetries
          = (.error (.maxRetriesExceeded (.other msg)), maxRetries + 1) := by
  constructor
  · intro op maxRetries msg hfail hlast
    have h := withRetryGo_exhaust op (maxRetries + 1) 0 (.osError msg) (by omega)
      (by
        intro i hi
        obtain ⟨m, hm⟩ := hfail i (by omega)
        exact ⟨.osError m, by simpa using hm, rfl⟩)
      (by simpa using hlast)
    simpa [with_retry, exhaustResult, isConnectionClass] using h
  · intro op maxRetries msg hfail hlast
    have h := withRetryGo_exhaust op (maxRetries + 1) 0 (.other msg) (by omega)
      (by
        intro i hi
        obtain ⟨m, hm⟩ := hfail i (by omega)
        exact ⟨.other m, by simpa using hm, rfl⟩)
      (by simpa using hlast)
    simpa [with_retry, exhaustResult, isConnectionClass] using h

/-- C3 witness: concrete always-failing operations of each transient
class under max_retries = 1, exercising both terminal error kinds. -/
theorem C3_terminal_errors_witness :
    with_retry (fun _ => (Except.error (PyError.osError "x") : Except PyError Nat)) 1
      = (.error (.networkConnectivity (.osError "x")), 2)
    ∧ with_retry (fun _ => (Except.error (PyError.other "y") : Except PyError Nat)) 1
      = (.error (.maxRetriesExceeded (.other "y")), 2) :=
  ⟨C3_terminal_errors.1 (fun _ => (Except.error (PyError.osError "x") : Except PyError Nat))
      1 "x" (fun _ _ => ⟨"x", rfl⟩) rfl,
   C3_terminal_errors.2 (fun _ => (Except.error (PyError.other "y") : Except PyError Nat))
      1 "y" (fun _ _ => ⟨"y", rfl⟩) rfl⟩

lemma match_keywords_ne_nil_iff (kws : List String) (c : String) :
    match_keywords kws c ≠ [] ↔ specKeywordMatch kws c := by
  simp only [match_keywords, specKeywordMatch]
  constructor
  · intro h
    obtain ⟨kw, hkw⟩ := List.exists_mem_of_ne_nil _ h
    rw [List.mem_filter] at hkw
    exact ⟨kw, hkw.1, hkw.2⟩
  · rintro ⟨kw, hmem, hp⟩
    exact List.ne_nil_of_mem (List.mem_filter.mpr ⟨hmem, hp⟩)

lemma mem_foldl_compile (rvalid : String → Bool) :
    ∀ (ps acc : List String) (q : String),
      q ∈ ps.foldl (fun a p => if rvalid p then dictInsertKey a p else a) acc
        ↔ q ∈ acc ∨ (q ∈ ps ∧ rvalid q = true) := by
  intro ps
  induction ps with
  | nil => simp
  | cons p ps ih =>
      intro acc q
      rw [List.foldl_cons, ih]
      by_cases hv : rvalid p = true
      · by_cases hpa : p ∈ acc
        · simp only [hv, if_pos, dictInsertKey, hpa, List.mem_cons]
          constructor
          · rintro (h | ⟨h1, h2⟩)
            · exact Or.inl h
            · exact Or.inr ⟨Or.inr h1, h2⟩
          · rintro (h | ⟨h1 | h1, h2⟩)
            · exact Or.inl h
            · exact Or.inl (h1 ▸ hpa)
            · exact Or.inr ⟨h1, h2⟩
        · simp only [hv, if_pos, dictInsertKey, if_neg hpa, List.mem_append,
            List.mem_singleton, List.mem_cons, List.mem_nil_iff, or_false]
          constructor
          · rintro ((h | h) | ⟨h1, h2⟩)
            · exact Or.inl h
            · exact Or.inr ⟨Or.inl h, h ▸ hv⟩
            · exact Or.inr ⟨Or.inr h1, h2⟩
          · rintro (h | ⟨h1 | h1, h2⟩)
            · exact Or.inl (Or.inl h)
            · exact Or.inl (Or.inr h1)
            · exact Or.inr ⟨h1, h2⟩
      · simp only [hv, if_neg, List.mem_cons, Bool.not_eq_true]
        constructor
        · rintro (h | ⟨h1, h2⟩)
          · exact Or.inl h
          · exact Or.inr ⟨Or.inr h1, h2⟩
        · rintro (h | ⟨h1 | h1, h2⟩)
          · exact Or.inl h
          · exact absurd (h1 ▸ h2) (by simp [hv])
          · exact Or.inr ⟨h1, h2⟩

lemma mem_compiledPatterns (rvalid : String → Bool) (ps : List String) (q : String) :
    q ∈ compiledPatterns rvalid ps ↔ q ∈ ps ∧ rvalid q = true := by
  simpa [compiledPatterns] using mem_foldl_compile rvalid ps [] q

lemma match_regex_ne_nil_iff (rvalid : String → Bool) (rmatch : String → String → Bool)
    (ps : List String) (c : String) :
    match_regex rvalid rmatch ps c ≠ [] ↔ specRegexMatch rvalid rmatch ps c := by
  simp only [match_regex, specRegexMatch]
  by_cases hps : ps.isEmpty
  · obtain rfl : ps = [] := List.isEmpty_iff.mp hps
    simp
  · rw [if_neg hps]
    constructor
    · intro h
      obtain ⟨p, hp⟩ := List.exists_mem_of_ne_nil _ h
      rw [List.mem_filter] at hp
      obtain ⟨hmem, hval⟩ := (mem_compiledPatterns rvalid ps p).mp hp.1
      exact ⟨p, hmem, hval, hp.2⟩
    · rintro ⟨p, hmem, hval, hm⟩
      exact List.ne_nil_of_mem
        (List.mem_filter.mpr ⟨(mem_compiledPatterns rvalid ps p).mpr ⟨hmem, hval⟩, hm⟩)

lemma evaluate_criteria_or_iff (cfg : FilterConfig) (km rm : List String)
    (hne : ¬(cfg.keywords = [] ∧ cfg.regex_patterns = []))
    (hlog : upperChars cfg.logic_operator ≠ "AND".toList) :
    evaluate_criteria cfg km rm = true ↔ km ≠ [] ∨ rm ≠ [] := by
  by_cases hk : cfg.keywords = [] <;> by_cases hp : cfg.regex_patterns = [] <;>
    by_cases h3 : km = [] <;> by_cases h4 : rm = [] <;>
      simp_all [evaluate_criteria, List.isEmpty_iff, List.append_eq_nil]

lemma evaluate_criteria_and_iff (cfg : FilterConfig) (km rm : List String)
    (hne : ¬(cfg.keywords = [] ∧ cfg.regex_patterns = []))
    (hlog : upperChars cfg.logic_operator = "AND".toList) :
    evaluate_criteria cfg km rm = true ↔
      (cfg.keywords ≠ [] → km ≠ []) ∧ (cfg.regex_patterns ≠ [] → rm ≠ []) := by
  by_cases hk : cfg.keywords = [] <;> by_cases hp : cfg.regex_patterns = [] <;>
    by_cases h3 : km = [] <;> by_cases h4 : rm = [] <;>
      simp_all [evaluate_criteria, List.isEmpty_iff, List.append_eq_nil]

lemma is_relevant_fst_eval (rvalid : String → Bool) (rmatch : String → String → Bool)
    (cfg : FilterConfig) (content : String) (extracted : Option String)
    (hb : isBlank (contentToCheck content extracted) = false) :
    (is_relevant rvalid rmatch cfg content extracted).1
      = evaluate_criteria cfg
          (match_keywords cfg.keywords (contentToCheck content extracted))
          (match_regex rvalid rmatch cfg.regex_patterns
            (contentToCheck content extracted)) := by
  simp [is_relevant, hb]

/-- C4: with considered content = message.content (plus a space plus the
extracted text when a non-empty extraction is present), `is_relevant`
returns false on empty or whitespace-only content; returns true for
every message when no keywords and no regex patterns are configured;
otherwise under OR logic returns true iff at least one case-insensitive
keyword substring match or regex match exists, and under AND logic
returns true iff every criteria type that is non-empty in the
configuration has at least one match. -/
theorem C4_is_relevant_formula :
    ∀ (rvalid : String → Bool) (rmatch : String → String → Bool)
      (cfg : FilterConfig) (content : String) (extracted : Option String),
      (isBlank (contentToCheck content extracted) = true →
        (is_relevant rvalid rmatch cfg content extracted).1 = false)
      ∧ (isBlank (contentToCheck content extracted) = false →
          cfg.keywords = [] → cfg.regex_patterns = [] →
          (is_relevant rvalid rmatch cfg content extracted).1 = true)
      ∧ (isBlank (contentToCheck content extracted) = false →
          ¬(cfg.keywords = [] ∧ cfg.regex_patterns = []) →
          upperChars cfg.logic_operator ≠ "AND".toList →
          ((is_relevant rvalid rmatch cfg content extracted).1 = true ↔
            specKeywordMatch cfg.keywords (contentToCheck content extracted)
            ∨ specRegexMatch rvalid rmatch cfg.regex_patterns
                (contentToCheck content extracted)))
      ∧ (isBlank (contentToCheck content extracted) = false →
          ¬(cfg.keywords = [] ∧ cfg.regex_patterns = []) →
          upperChars cfg.logic_operator = "AND".toList →
          ((is_relevant rvalid rmatch cfg content extracted).1 = true ↔
            (cfg.keywords ≠ [] →
              specKeywordMatch cfg.keywords (contentToCheck content extracted))
            ∧ (cfg.regex_patterns ≠ [] →
              specRegexMatch rvalid rmatch cfg.regex_patterns
                (contentToCheck content extracted)))) := by
  intro rvalid rmatch cfg content extracted
  refine ⟨fun hb => by simp [is_relevant, hb],
          fun hb hk hp => by simp [is_relevant, hb, evaluate_criteria, hk, hp],
          ?_, ?_⟩
  · intro hb hne hlog
    rw [is_relevant_fst_eval rvalid rmatch cfg content extracted hb,
      ← match_keywords_ne_nil_iff, ← match_regex_ne_nil_iff]
    exact evaluate_criteria_or_iff cfg _ _ hne hlog
  · intro hb hne hlog
    rw [is_relevant_fst_eval rvalid rmatch cfg content extracted hb,
      ← match_keywords_ne_nil_iff, ← match_regex_ne_nil_iff]
    exact evaluate_criteria_and_iff cfg _ _ hne hlog

/-- C4 witness: the spec's §8 example — keywords `["urgent"]`, no
patterns, OR logic, content `"This is Urgent!"` — instantiating the OR
clause of the formula theorem. -/
theorem C4_is_relevant_formula_witness :
    isBlank (contentToCheck "This is Urgent!" none) = false
    ∧ ((is_relevant (fun _ => true) (fun _ _ => false)
          ⟨["urgent"], [], "OR"⟩ "This is Urgent!" none).1 = true ↔
        specKeywordMatch ["urgent"] (contentToCheck "This is Urgent!" none)
        ∨ specRegexMatch (fun _ => true) (fun _ _ => false) []
            (contentToCheck "This is Urgent!" none)) :=
  ⟨by decide,
   (C4_is_relevant_formula (fun _ => true) (fun _ _ => false)
      ⟨["urgent"], [], "OR"⟩ "This is Urgent!" none).2.2.1
      (by decide) (by decide) (by decide)⟩

lemma foldl_compile_length_le (rvalid : String → Bool) :
    ∀ (ps acc : List String),
      (ps.foldl (fun a p => if rvalid p then dictInsertKey a p else a) acc).length
        ≤ acc.length + ps.length := by
  intro ps
  induction ps with
  | nil => simp
  | cons p ps ih =>
      intro acc
      rw [List.foldl_cons]
      refine le_trans (ih _) ?_
      have hstep : (if rvalid p then dictInsertKey acc p else acc).length
          ≤ acc.length + 1 := by
        by_cases hv : rvalid p = true
        · by_cases hpa : p ∈ acc <;> simp [hv, dictInsertKey, hpa]
        · simp [hv]
      simp only [List.length_cons]
      omega

lemma match_keywords_length_le (kws : List String) (c : String) :
    (match_keywords kws c).length ≤ kws.length := by
  simp only [match_keywords]
  exact List.length_filter_le _ _

lemma match_regex_length_le (rvalid : String → Bool) (rmatch : String → String → Bool)
    (ps : List String) (c : String) :
    (match_regex rvalid rmatch ps c).length ≤ ps.length := by
  simp only [match_regex]
  by_cases hps : ps.isEmpty
  · simp [hps]
  · rw [if_neg hps]
    refine le_trans (List.length_filter_le _ _) ?_
    simpa [compiledPatterns] using foldl_compile_length_le rvalid ps []

/-- C9: for every filter configuration — including ones with duplicate
keywords, duplicate regex patterns or invalid regex patterns (skipped at
compile time) — and every message with non-blank considered content,
`is_relevant` writes `relevance_score` = number of matched criteria
divided by max(1, configured keywords + configured regex patterns), and
that value lies in [0, 1]. -/
theorem C9_relevance_score :
    ∀ (rvalid : String → Bool) (rmatch : String → String → Bool)
      (cfg : FilterConfig) (content : String) (extracted : Option String),
      isBlank (contentToCheck content extracted) = false →
      ∃ ms : List String × ℚ,
        (is_relevant rvalid rmatch cfg content extracted).2 = some ms
        ∧ ms.2 = (ms.1.length : ℚ)
            / (max 1 (cfg.keywords.length + cfg.regex_patterns.length) : ℚ)
        ∧ 0 ≤ ms.2 ∧ ms.2 ≤ 1 := by
  intro rvalid rmatch cfg content extracted hb
  set c := contentToCheck content extracted with hc
  set km := match_keywords cfg.keywords c with hkm
  set rm := match_regex rvalid rmatch cfg.regex_patterns c with hrm
  set d : ℚ := (max 1 (cfg.keywords.length + cfg.regex_patterns.length) : ℚ) with hd
  have hdpos : 0 < d := lt_of_lt_of_le one_pos (le_max_left 1 _)
  refine ⟨(km ++ rm, ((km ++ rm).length : ℚ) / d), ?_, rfl, ?_, ?_⟩
  · simp [is_relevant, hb, hkm, hrm, hd]
  · positivity
  · rw [div_le_one hdpos]
    have hlen : (km ++ rm).length ≤ cfg.keywords.length + cfg.regex_patterns.length := by
      rw [List.length_append]
      exact Nat.add_le_add (match_keywords_length_le _ _)
        (match_regex_length_le _ _ _ _)
    calc ((km ++ rm).length : ℚ)
        ≤ ((cfg.keywords.length + cfg.regex_patterns.length : ℕ) : ℚ) := by
          exact_mod_cast hlen
      _ ≤ d := by rw [hd]; push_cast; exact le_max_right _ _

/-- C9 witness: a configuration with a duplicate keyword, a duplicate
valid pattern and an invalid pattern, on concrete content. -/
theorem C9_relevance_score_witness :
    isBlank (contentToCheck "xa" none) = false
    ∧ ∃ ms : List String × ℚ,
        (is_relevant (fun p => !(p = "(" : Bool)) (fun p _ => p = "b")
            ⟨["a", "a"], ["(", "b", "b"], "AND"⟩ "xa" none).2 = some ms
        ∧ ms.2 = (ms.1.length : ℚ) / (max 1 (2 + 3) : ℚ)
        ∧ 0 ≤ ms.2 ∧ ms.2 ≤ 1 :=
  ⟨by decide,
   C9_relevance_score (fun p => !(p = "(" : Bool)) (fun p _ => p = "b")
      ⟨["a", "a"], ["(", "b", "b"], "AND"⟩ "xa" none (by decide)⟩

/-- C5 counterexample: the duplicate key concatenates str(id),
str(group_id) and content with no separator, so the record
(id = 12, group_id = 3, content = "x") — whose id and group_id both
differ from the only stored record (id = 1, group_id = 23,
content = "x") — is rejected as a duplicate instead of being stored as a
new entry. -/
theorem C5_counterexample :
    (store_message (store_message emptyStore ⟨1, 23, "x", "t1"⟩).1 ⟨12, 3, "x", "t2"⟩).2
      = false
    ∧ (store_message (store_message emptyStore ⟨1, 23, "x", "t1"⟩).1 ⟨12, 3, "x", "t2"⟩).1.data
      = [⟨1, 23, "x", "t1"⟩]
    ∧ (12 : Int) ≠ 1 ∧ (3 : Int) ≠ 23
    ∧ genContentHash ⟨1, 23, "x", "t1"⟩ = genContentHash ⟨12, 3, "x", "t2"⟩ := by
  refine ⟨by decide, by decide, by decide, by decide, by decide⟩

/-- C5 (amended): storing a record and then a second record with the
same (id, group_id, content) — other fields arbitrary — keeps the store
unchanged and returns false for the second call; a record whose
duplicate key (the separator-free concatenation str(id) + str(group_id)
+ content) is absent from the stored key set is always stored as a new
entry.  Distinct (id, group_id, content) triples can share a key, and
such a record is rejected as a duplicate. -/
theorem C5_duplicate_detection :
    (∀ (s : Store) (m m' : MsgRecord),
        m'.id = m.id → m'.group_id = m.group_id → m'.content = m.content →
        store_message (store_message s m).1 m' = ((store_message s m).1, false))
    ∧ ∀ (s : Store) (m : MsgRecord),
        genContentHash m ∉ s.duplicate_hashes →
        store_message s m
          = (⟨s.data ++ [m], s.duplicate_hashes ++ [genContentHash m]⟩, true) := by
  constructor
  · intro s m m' hid hgid hcontent
    have hkey : genContentHash m' = genContentHash m := by
      simp [genContentHash, hid, hgid, hcontent]
    by_cases hdup : isDuplicate s m = true
    · have h1 : store_message s m = (s, false) := by simp [store_message, hdup]
      rw [h1]
      simp only [store_message, isDuplicate, hkey]
      rw [if_pos]
      simpa [isDuplicate] using hdup
    · have h1 : store_message s m
          = (⟨s.data ++ [m], s.duplicate_hashes ++ [genContentHash m]⟩, true) := by
        simp [store_message, hdup]
      rw [h1]
      simp only [store_message, isDuplicate, hkey]
      rw [if_pos]
      simp
  · intro s m hkey
    simp [store_message, isDuplicate, hkey]

/-- C5 witness: a record re-stored with the same key triple but a
different `other` field is rejected, leaving the store as after the
first call. -/
theorem C5_duplicate_detection_witness :
    store_message (store_message emptyStore ⟨5, 7, "hi", "a"⟩).1 ⟨5, 7, "hi", "b"⟩
      = ((store_message emptyStore ⟨5, 7, "hi", "a"⟩).1, false)
    ∧ store_message emptyStore ⟨5, 7, "hi", "a"⟩
      = (⟨[⟨5, 7, "hi", "a"⟩], [genContentHash ⟨5, 7, "hi", "a"⟩]⟩, true) :=
  ⟨C5_duplicate_detection.1 emptyStore ⟨5, 7, "hi", "a"⟩ ⟨5, 7, "hi", "b"⟩ rfl rfl rfl,
   C5_duplicate_detection.2 emptyStore ⟨5, 7, "hi", "a"⟩ (by decide)⟩

/-- C6 counterexample: with every disk write failing with an I/O error,
`store_message` does not surface any exception to its caller — the retry
wrapper's outcome is a plain `ok false` (the retried body sees the
already-recorded duplicate key) and the function returns `False` — and
the persistence layer makes its 3 write attempts separated by backoff
delays of 1 and 2 seconds (not 1, 2 and 4), restoring the backup. -/
theorem C6_counterexample :
    (store_message_full (fun _ => true) ⟨emptyStore, 0⟩ ⟨1, 2, "hello", "o"⟩).2.1
      = Except.ok false
    ∧ (store_message_full (fun _ => true) ⟨emptyStore, 0⟩ ⟨1, 2, "hello", "o"⟩).2.2
      = false
    ∧ persist_with_retry (fun _ => true) 0
      = (.error (.osError "persist"), [1, 2], true)
    ∧ [1, 2] ≠ [1, 2, 4] := by
  refine ⟨by decide, by decide, by decide, by decide⟩

lemma persist_always_fails (base : Nat) :
    persist_with_retry (fun _ => true) base
      = (.error (.osError "persist"), [1, 2], true) := rfl

/-- C6 (amended): if every attempt to persist the store to disk fails
with an I/O error, `store_message` returns False to its caller and no
exception escapes: each persistence call makes 3 write attempts
separated by exponential backoff delays of 1 and 2 seconds and restores
the backup file to the primary path before raising into the retry
wrapper, whose next invocation of the store body observes the
already-added duplicate key and returns False. -/
theorem C6_storage_failure_swallowed :
    (∀ (st : StoreSt) (m : MsgRecord),
        (store_message_full (fun _ => true) st m).2.1 = Except.ok false
        ∧ (store_message_full (fun _ => true) st m).2.2 = false)
    ∧ ∀ (base : Nat),
        persist_with_retry (fun _ => true) base
          = (.error (.osError "persist"), [1, 2], true) := by
  refine ⟨?_, fun base => persist_always_fails base⟩
  intro st m
  by_cases hdup : isDuplicate st.store m = true
  · have h1 : storeImpl (fun _ => true) m st = (st, .ok false) := by
      simp [storeImpl, hdup]
    constructor <;>
      simp [store_message_full, withRetrySt, withRetryStGo, h1]
  · have h1 : storeImpl (fun _ => true) m st
        = (⟨⟨st.store.data ++ [m], st.store.duplicate_hashes ++ [genContentHash m]⟩,
            st.writes + 3⟩, .error (.osError "persist")) := by
      simp [storeImpl, hdup, persist_always_fails]
    have h2 : storeImpl (fun _ => true) m
        ⟨⟨st.store.data ++ [m], st.store.duplicate_hashes ++ [genContentHash m]⟩,
          st.writes + 3⟩ = (⟨⟨st.store.data ++ [m],
            st.store.duplicate_hashes ++ [genContentHash m]⟩,
          st.writes + 3⟩, .ok false) := by
      simp [storeImpl, isDuplicate]
    constructor <;>
      simp [store_message_full, withRetrySt, withRetryStGo, h1, h2, fatalResult]

end TgUserbot
